import Mathlib

/-!
Verification of the change-scoring / buffering / triggering / adaptive-threshold
pipeline of the Blue repository.

Shallow embedding conventions:
- Python ints are `Int`; clock readings (`time.time()`) are an abstract simulated
  clock, also `Int`.
- Python dict-shaped records become structures whose field defaults mirror the
  `config.get(key, default)` defaults in the source.
- File-system reads are passed in explicitly: `file_exists : Bool` models
  `os.path.exists`, and `readResult : Option String` models `open(...).read()`
  (`none` means the read raised an exception, which the source catches).
- Regex matching of configuration-supplied pattern rules is abstracted as
  counting functions supplied with the rule.
-/

namespace Blue

/-! ## Generic string helpers (Python `in`, `str.split()`, `int(...)`) -/

/-- Bool-valued test that `needle` occurs as a contiguous substring of
`haystack`, mirroring Python's `needle in haystack` on strings. -/
def containsSub (haystack needle : List Char) : Bool :=
  needle.isPrefixOf haystack ||
    match haystack with
    | [] => false
    | _ :: t => containsSub t needle

/-- String version of `containsSub`. -/
def strContainsSub (haystack needle : String) : Bool :=
  containsSub haystack.data needle.data

/-- Helper for `pySplit`: split a character list at every whitespace
character. -/
def splitWhitespaceAux : List Char → List (List Char)
  | [] => [[]]
  | c :: rest =>
      if c.isWhitespace then [] :: splitWhitespaceAux rest
      else
        match splitWhitespaceAux rest with
        | [] => [[c]]
        | r :: rs => (c :: r) :: rs

/-- Python `s.split()`: split on whitespace runs, dropping empty pieces. -/
def pySplit (s : String) : List String :=
  ((splitWhitespaceAux s.data).filter (fun piece => !piece.isEmpty)).map String.mk

/-- Helper for `pySplitOn`: split at each non-overlapping occurrence of `sep`,
scanning left to right; `fuel` (instantiated with the list length) makes the
recursion structural. -/
def listSplitOnAux (sep : List Char) : Nat → List Char → List (List Char)
  | _, [] => [[]]
  | 0, l => [l]
  | fuel + 1, c :: rest =>
      if sep ≠ [] && sep.isPrefixOf (c :: rest) then
        [] :: listSplitOnAux sep fuel ((c :: rest).drop sep.length)
      else
        match listSplitOnAux sep fuel rest with
        | [] => [[c]]
        | r :: rs => (c :: r) :: rs

/-- Python `s.split(sep)` for a non-empty separator. -/
def pySplitOn (s : String) (sep : String) : List String :=
  (listSplitOnAux sep.data s.data.length s.data).map String.mk

/-- Python `int(s)` restricted to the sign-free tokens produced by the source
(the source strips '+' and '-' first): `none` models a raised `ValueError`. -/
def pyToNat? (s : String) : Option Nat :=
  if !s.data.isEmpty && s.data.all Char.isDigit then
    some (s.data.foldl (fun n c => n * 10 + (c.toNat - '0'.toNat)) 0)
  else none

/-- Python `s.lower()` (ASCII case folding). -/
def pyLower (s : String) : String := String.mk (s.data.map Char.toLower)

/-- Python `s.strip()`: drop leading and trailing whitespace. -/
def pyStrip (s : String) : String :=
  String.mk (((s.data.dropWhile Char.isWhitespace).reverse.dropWhile
    Char.isWhitespace).reverse)

/-! ## Adaptive feedback controller
(`src/blue/conversation/feedback_processor.py`, class `FeedbackProcessor`;
`src/blue/core/feedback_system.py` implements the identical threshold update). -/

/-- The `limits` section of the configuration, with the defaults used by
`config.get('limits', {}).get(key, default)` throughout the source. -/
structure Limits where
  enable_adaptive_learning : Bool := false
  threshold_adjustment : Int := 1
  min_score_threshold : Int := 3
  max_score_threshold : Int := 10
  score_threshold : Int := 5
  confidence_threshold : Int := 7
deriving Repr, DecidableEq

/-- One entry of `feedback_history` (only the threshold-relevant fields). -/
structure FeedbackRecord where
  is_positive : Bool
  old_threshold : Int
  new_threshold : Int
deriving Repr, DecidableEq

/-- Mutable state of `FeedbackProcessor`. -/
structure FeedbackProcessor where
  limits : Limits := {}
  current_score_threshold : Int := 5
  feedback_history : List FeedbackRecord := []
deriving Repr, DecidableEq

/-- `FeedbackProcessor.__init__`: threshold starts at `limits['score_threshold']`,
history empty. -/
def FeedbackProcessor.init (limits : Limits) : FeedbackProcessor :=
  { limits := limits
    current_score_threshold := limits.score_threshold
    feedback_history := [] }

/-- `FeedbackProcessor._process_feedback`: positive feedback lowers the
threshold by `threshold_adjustment` clamped below at `min_score_threshold`;
negative feedback raises it clamped above at `max_score_threshold`; a history
record is appended. -/
def FeedbackProcessor.process_feedback (fp : FeedbackProcessor) (is_positive : Bool)
    (_comment_score : Int) : FeedbackProcessor :=
  let adjustment := fp.limits.threshold_adjustment
  let min_threshold := fp.limits.min_score_threshold
  let max_threshold := fp.limits.max_score_threshold
  let old_threshold := fp.current_score_threshold
  let new_threshold :=
    if is_positive then max min_threshold (fp.current_score_threshold - adjustment)
    else min max_threshold (fp.current_score_threshold + adjustment)
  { fp with
    current_score_threshold := new_threshold
    feedback_history := fp.feedback_history ++
      [{ is_positive := is_positive, old_threshold := old_threshold,
         new_threshold := new_threshold }] }

/-- The positive keyword set of `FeedbackProcessor`. -/
def positive_keywords : List String :=
  ["good", "helpful", "nice", "thanks", "useful", "great", "awesome", "perfect",
   "excellent", "spot on"]

/-- The negative keyword set of `FeedbackProcessor`. -/
def negative_keywords : List String :=
  ["bad", "wrong", "unhelpful", "annoying", "stop", "quiet", "too much", "spam",
   "unnecessary"]

/-- One entry of the conversation history, with the fields
`process_potential_feedback` inspects (`entry.get(key, default)` defaults). -/
structure ConversationEntry where
  role : String := ""
  content : String := ""
  type : String := ""
  awaiting_feedback : Bool := false
  feedback_timeout : Int := 0
  score : Int := 0
  reason : String := "unknown"
deriving Repr, DecidableEq

/-- The reverse scan of `process_potential_feedback`: the most recent assistant
entry that is awaiting feedback and whose timeout has not yet passed. -/
def findAwaitingEntry (conversation_history : List ConversationEntry)
    (current_time : Int) : Option ConversationEntry :=
  conversation_history.reverse.find? fun entry =>
    entry.role == "assistant" && entry.awaiting_feedback &&
      decide (current_time < entry.feedback_timeout)

/-- `FeedbackProcessor.process_potential_feedback`: detect positive/negative
keywords in the lower-cased, stripped input; if any match and an unexpired
awaiting-feedback assistant entry exists, process the feedback (with
`is_positive = positive_feedback`) and return `true`. -/
def FeedbackProcessor.process_potential_feedback (fp : FeedbackProcessor)
    (user_input : String) (conversation_history : List ConversationEntry)
    (current_time : Int) : Bool × FeedbackProcessor :=
  if !fp.limits.enable_adaptive_learning then (false, fp)
  else
    let user_input_lower := pyStrip (pyLower user_input)
    let positive_feedback := positive_keywords.any fun w => strContainsSub user_input_lower w
    let negative_feedback := negative_keywords.any fun w => strContainsSub user_input_lower w
    if !(positive_feedback || negative_feedback) then (false, fp)
    else
      match findAwaitingEntry conversation_history current_time with
      | some entry => (true, fp.process_feedback positive_feedback entry.score)
      | none => (false, fp)

/-- Folding a whole sequence of feedback events (direction, associated comment
score) through `process_feedback`. -/
def FeedbackProcessor.runFeedback (fp : FeedbackProcessor)
    (events : List (Bool × Int)) : FeedbackProcessor :=
  events.foldl (fun s e => s.process_feedback e.1 e.2) fp

theorem process_feedback_limits (fp : FeedbackProcessor) (b : Bool) (sc : Int) :
    (fp.process_feedback b sc).limits = fp.limits := rfl

theorem process_feedback_threshold (fp : FeedbackProcessor) (b : Bool) (sc : Int) :
    (fp.process_feedback b sc).current_score_threshold =
      if b then max fp.limits.min_score_threshold
        (fp.current_score_threshold - fp.limits.threshold_adjustment)
      else min fp.limits.max_score_threshold
        (fp.current_score_threshold + fp.limits.threshold_adjustment) := rfl

theorem process_feedback_bounds (fp : FeedbackProcessor) (b : Bool) (sc : Int)
    (hmin : fp.limits.min_score_threshold ≤ fp.current_score_threshold)
    (hmax : fp.current_score_threshold ≤ fp.limits.max_score_threshold)
    (hadj : 0 ≤ fp.limits.threshold_adjustment) :
    fp.limits.min_score_threshold ≤ (fp.process_feedback b sc).current_score_threshold ∧
      (fp.process_feedback b sc).current_score_threshold ≤ fp.limits.max_score_threshold := by
  rw [process_feedback_threshold]
  rcases b with _ | _ <;> simp only [if_true, if_false, Bool.false_eq_true] <;>
    constructor <;> simp only [le_max_iff, max_le_iff, le_min_iff, min_le_iff] <;> omega

theorem runFeedback_limits (events : List (Bool × Int)) (fp : FeedbackProcessor) :
    (fp.runFeedback events).limits = fp.limits := by
  induction events generalizing fp with
  | nil => rfl
  | cons e rest ih =>
      show ((fp.process_feedback e.1 e.2).runFeedback rest).limits = fp.limits
      rw [ih, process_feedback_limits]

/-- C5: for all sequences of processed feedback events, starting from a
configuration-respecting threshold with a non-negative adjustment step, the
invariant `min_score_threshold ≤ current_threshold ≤ max_score_threshold` holds
after every adjustment; moreover each single adjustment is exactly the claimed
clamped step (positive lowers clamped at the minimum, negative raises clamped
at the maximum), silently, never an error. -/
theorem feedback_threshold_bounds_invariant (fp : FeedbackProcessor)
    (events : List (Bool × Int))
    (hmin : fp.limits.min_score_threshold ≤ fp.current_score_threshold)
    (hmax : fp.current_score_threshold ≤ fp.limits.max_score_threshold)
    (hadj : 0 ≤ fp.limits.threshold_adjustment) :
    (fp.limits.min_score_threshold ≤ (fp.runFeedback events).current_score_threshold ∧
      (fp.runFeedback events).current_score_threshold ≤ fp.limits.max_score_threshold) ∧
    (∀ b sc, (fp.process_feedback b sc).current_score_threshold =
      if b then max fp.limits.min_score_threshold
        (fp.current_score_threshold - fp.limits.threshold_adjustment)
      else min fp.limits.max_score_threshold
        (fp.current_score_threshold + fp.limits.threshold_adjustment)) := by
  refine ⟨?_, fun b sc => process_feedback_threshold fp b sc⟩
  induction events generalizing fp with
  | nil => exact ⟨hmin, hmax⟩
  | cons e rest ih =>
      have hb := process_feedback_bounds fp e.1 e.2 hmin hmax hadj
      have hlim := process_feedback_limits fp e.1 e.2
      have := ih (fp.process_feedback e.1 e.2)
        (by rw [hlim]; exact hb.1) (by rw [hlim]; exact hb.2) (by rw [hlim]; exact hadj)
      rw [hlim] at this
      exact this

/-- Closed witness for `feedback_threshold_bounds_invariant` at the default
configuration and a concrete mixed feedback sequence. -/
theorem feedback_threshold_bounds_invariant_witness :
    ((3 : Int) ≤ ((FeedbackProcessor.init {}).runFeedback
        [(true, 0), (true, 1), (false, 2), (true, 0)]).current_score_threshold ∧
      ((FeedbackProcessor.init {}).runFeedback
        [(true, 0), (true, 1), (false, 2), (true, 0)]).current_score_threshold ≤ 10) ∧
    (∀ b sc, ((FeedbackProcessor.init {}).process_feedback b sc).current_score_threshold =
      if b then max 3 (5 - 1) else min 10 (5 + 1)) :=
  feedback_threshold_bounds_invariant (FeedbackProcessor.init {})
    [(true, 0), (true, 1), (false, 2), (true, 0)]
    (by decide) (by decide) (by decide)

/-- C8: the final threshold after replaying an ordered feedback sequence is a
deterministic function of configuration, starting threshold, and the sequence:
any two controllers agreeing on limits and current threshold (in particular two
fresh controllers built from the same configuration) end with identical
thresholds after processing the same events. -/
theorem feedback_threshold_deterministic (s1 s2 : FeedbackProcessor)
    (events : List (Bool × Int))
    (hlim : s1.limits = s2.limits)
    (ht : s1.current_score_threshold = s2.current_score_threshold) :
    (s1.runFeedback events).current_score_threshold =
      (s2.runFeedback events).current_score_threshold := by
  induction events generalizing s1 s2 with
  | nil => exact ht
  | cons e rest ih =>
      refine ih (s1.process_feedback e.1 e.2) (s2.process_feedback e.1 e.2) ?_ ?_
      · rw [process_feedback_limits, process_feedback_limits, hlim]
      · rw [process_feedback_threshold, process_feedback_threshold, hlim, ht]

/-- Closed witness for `feedback_threshold_deterministic`: two fresh default
controllers replaying the same sequence. -/
theorem feedback_threshold_deterministic_witness :
    ((FeedbackProcessor.init {}).runFeedback
        [(false, 0), (true, 3), (false, 1)]).current_score_threshold =
      ((FeedbackProcessor.init {}).runFeedback
        [(false, 0), (true, 3), (false, 1)]).current_score_threshold :=
  feedback_threshold_deterministic (FeedbackProcessor.init {})
    (FeedbackProcessor.init {}) [(false, 0), (true, 3), (false, 1)] rfl rfl

/-- C10: when the input text contains at least one positive and at least one
negative keyword simultaneously, adaptive learning is enabled, and an unexpired
awaiting-feedback assistant entry exists, the feedback is consumed and processed
as positive: the threshold becomes the positive-branch value
`max min_score_threshold (current - threshold_adjustment)`, and (for an
in-range threshold and non-negative step) is never raised. -/
theorem mixed_feedback_processed_as_positive (fp : FeedbackProcessor)
    (user_input : String) (conversation_history : List ConversationEntry)
    (current_time : Int)
    (hen : fp.limits.enable_adaptive_learning = true)
    (hpos : ∃ w ∈ positive_keywords, strContainsSub (pyStrip (pyLower user_input)) w = true)
    (hneg : ∃ w ∈ negative_keywords, strContainsSub (pyStrip (pyLower user_input)) w = true)
    (hentry : (findAwaitingEntry conversation_history current_time).isSome)
    (hmin : fp.limits.min_score_threshold ≤ fp.current_score_threshold)
    (hadj : 0 ≤ fp.limits.threshold_adjustment) :
    (fp.process_potential_feedback user_input conversation_history current_time).1 = true ∧
    (fp.process_potential_feedback user_input conversation_history
        current_time).2.current_score_threshold =
      max fp.limits.min_score_threshold
        (fp.current_score_threshold - fp.limits.threshold_adjustment) ∧
    (fp.process_potential_feedback user_input conversation_history
        current_time).2.current_score_threshold ≤ fp.current_score_threshold := by
  obtain ⟨wp, hwp, hwp2⟩ := hpos
  obtain ⟨wn, hwn, hwn2⟩ := hneg
  have hposb : (positive_keywords.any
      fun w => strContainsSub (pyStrip (pyLower user_input)) w) = true :=
    List.any_eq_true.2 ⟨wp, hwp, hwp2⟩
  have hnegb : (negative_keywords.any
      fun w => strContainsSub (pyStrip (pyLower user_input)) w) = true :=
    List.any_eq_true.2 ⟨wn, hwn, hwn2⟩
  obtain ⟨entry, hfind⟩ := Option.isSome_iff_exists.1 hentry
  have hres : fp.process_potential_feedback user_input conversation_history current_time =
      (true, fp.process_feedback true entry.score) := by
    unfold FeedbackProcessor.process_potential_feedback
    rw [hen]
    simp only [Bool.not_true, Bool.false_eq_true, if_false, hposb, hnegb, Bool.true_or,
      hfind]
  rw [hres]
  refine ⟨rfl, process_feedback_threshold fp true entry.score, ?_⟩
  rw [process_feedback_threshold fp true entry.score]
  simp only [if_true, max_le_iff]
  omega

/-- Closed witness for `mixed_feedback_processed_as_positive`: the input
"good but wrong" contains both a positive and a negative keyword; with the
default limits (threshold 5, step 1, minimum 3) the threshold drops to 4. -/
theorem mixed_feedback_processed_as_positive_witness :
    (({ limits := { enable_adaptive_learning := true } } :
        FeedbackProcessor).process_potential_feedback "good but wrong"
        [{ role := "assistant", awaiting_feedback := true, feedback_timeout := 100 }]
        0).1 = true ∧
    (({ limits := { enable_adaptive_learning := true } } :
        FeedbackProcessor).process_potential_feedback "good but wrong"
        [{ role := "assistant", awaiting_feedback := true, feedback_timeout := 100 }]
        0).2.current_score_threshold = max 3 (5 - 1) ∧
    (({ limits := { enable_adaptive_learning := true } } :
        FeedbackProcessor).process_potential_feedback "good but wrong"
        [{ role := "assistant", awaiting_feedback := true, feedback_timeout := 100 }]
        0).2.current_score_threshold ≤ 5 :=
  mixed_feedback_processed_as_positive
    { limits := { enable_adaptive_learning := true } } "good but wrong"
    [{ role := "assistant", awaiting_feedback := true, feedback_timeout := 100 }] 0
    rfl ⟨"good", by decide, by decide⟩ ⟨"wrong", by decide, by decide⟩
    (by decide) (by decide) (by decide)

/-! ## Change buffer / codebase monitor
(`src/blue/monitoring/codebase_monitor.py`, class `CodebaseMonitor`). -/

/-- The entries of a `ChangeEvent.details` dict that the monitor and the score
calculation inspect. A dict key that the source only sets when truthy is
modelled by its falsy default (`[]` / `false` / `none`). -/
structure ChangeDetails where
  functions_added : List String := []
  has_security : Bool := false
  has_error_handling : Bool := false
  has_tests : Bool := false
  lines_changed : Option String := none
  language : Option String := none
  error : Option String := none
deriving Repr, DecidableEq

/-- `ChangeEvent` (`src/blue/monitoring/change_analyzer.py`). -/
structure ChangeEvent where
  file_path : String := ""
  event_type : String := "modified"
  timestamp : Int := 0
  details : ChangeDetails := {}
  score : Int := 0
deriving Repr, DecidableEq

/-- State of `CodebaseMonitor`: the change buffer (a `deque(maxlen=10)`), the
rolling `buffer_score`, the two clocks, and the `limits` configuration read in
`__init__` (field defaults are the source defaults). -/
structure CodebaseMonitor where
  change_buffer : List ChangeEvent := []
  buffer_score : Int := 0
  last_activity_time : Int := 0
  last_processing_time : Int := 0
  buffer_threshold : Int := 4
  min_buffer_size : Int := 3
  processing_cooldown : Int := 30
  score_threshold : Int := 5
  idle_threshold : Int := 30
  max_buffer_age : Int := 120
deriving Repr, DecidableEq

/-- Sum of the scores of the records currently retained in a buffer. -/
def bufferSum (buffer : List ChangeEvent) : Int :=
  (buffer.map (fun ev => ev.score)).sum

/-- `deque(maxlen=10).append`: push right; when the deque is full the leftmost
(oldest) element is silently discarded. -/
def dequeAppend (buffer : List ChangeEvent) (ev : ChangeEvent) : List ChangeEvent :=
  let b := buffer ++ [ev]
  b.drop (b.length - 10)

/-- The buffer-append step of `CodebaseMonitor._handle_file_change` (append the
scored event, add its score to the rolling sum, refresh the activity clock). -/
def CodebaseMonitor.appendChange (m : CodebaseMonitor) (ev : ChangeEvent)
    (now : Int) : CodebaseMonitor :=
  { m with
    change_buffer := dequeAppend m.change_buffer ev
    buffer_score := m.buffer_score + ev.score
    last_activity_time := now }

/-- `CodebaseMonitor._clean_old_buffer_entries`: drop records older than
`max_buffer_age` and recompute the rolling sum from the survivors. -/
def CodebaseMonitor.clean_old_buffer_entries (m : CodebaseMonitor)
    (current_time : Int) : CodebaseMonitor :=
  let cutoff_time := current_time - m.max_buffer_age
  let kept := m.change_buffer.filter (fun ev => decide (cutoff_time ≤ ev.timestamp))
  { m with change_buffer := kept, buffer_score := bufferSum kept }

/-- Python `xs[-n:]`. -/
def lastN {A : Type} (n : Nat) (xs : List A) : List A :=
  xs.drop (xs.length - n)

/-- `CodebaseMonitor._has_function_completion`: some of the 3 most recent
records carries a non-empty `functions_added`. -/
def CodebaseMonitor.has_function_completion (m : CodebaseMonitor) : Bool :=
  (lastN 3 m.change_buffer).any fun ev => !ev.details.functions_added.isEmpty

/-- `CodebaseMonitor._has_architectural_change`: among the 4 most recent
records there is a creation and a modification. -/
def CodebaseMonitor.has_architectural_change (m : CodebaseMonitor) : Bool :=
  let recent_events := lastN 4 m.change_buffer
  (recent_events.any fun ev => ev.event_type == "created") &&
    (recent_events.any fun ev => ev.event_type == "modified")

/-- The decision chain of `CodebaseMonitor._should_trigger_processing` after
the cleaning step: `m1` is the monitor state mutated by
`_clean_old_buffer_entries`, while `buffer_size` is the record count the source
captured before cleaning. The early returns become nested conditionals. -/
def CodebaseMonitor.trigger_decision (m1 : CodebaseMonitor) (buffer_size : Nat)
    (current_time : Int) : Bool :=
  if (buffer_size : Int) < m1.min_buffer_size then false
  else if current_time - m1.last_processing_time < m1.processing_cooldown then false
  else if m1.score_threshold ≤ m1.buffer_score then true
  else if m1.idle_threshold ≤ current_time - m1.last_activity_time ∧ 0 < buffer_size then
    true
  else if m1.has_function_completion || m1.has_architectural_change then true
  else if m1.buffer_threshold ≤ (buffer_size : Int) then true
  else false

/-- `CodebaseMonitor._should_trigger_processing`: capture the record count,
mutate the state by cleaning old entries, then run the decision chain; returns
the decision together with the mutated state. -/
def CodebaseMonitor.should_trigger_processing (m : CodebaseMonitor)
    (current_time : Int) : Bool × CodebaseMonitor :=
  let buffer_size := m.change_buffer.length
  let m1 := m.clean_old_buffer_entries current_time
  (m1.trigger_decision buffer_size current_time, m1)

/-- `CodebaseMonitor._trigger_change_processing`: after notifying handlers the
source sets `last_processing_time` to the current clock and clears the buffer
(`_clear_buffer` empties it and zeroes the rolling sum). -/
def CodebaseMonitor.trigger_change_processing (m : CodebaseMonitor)
    (now : Int) : CodebaseMonitor :=
  { m with last_processing_time := now, change_buffer := [], buffer_score := 0 }

/-- `CodebaseMonitor._handle_file_change` after the analyzer produced a scored
event: append to the buffer, then evaluate the trigger and fire it if the
decision is positive. Returns whether a trigger fired and the new state. -/
def CodebaseMonitor.handle_file_change (m : CodebaseMonitor) (ev : ChangeEvent)
    (now : Int) : Bool × CodebaseMonitor :=
  let m1 := m.appendChange ev now
  let r := m1.should_trigger_processing now
  if r.1 then (true, r.2.trigger_change_processing now) else (false, r.2)

/-- An operation on the change buffer: an append of a scored record, or a
trigger evaluation (which fires the trigger when the decision is positive), at
a given simulated-clock instant. -/
inductive BufferOp where
  | append (ev : ChangeEvent) (now : Int)
  | evaluate (now : Int)
deriving Repr

/-- Run one buffer operation. -/
def CodebaseMonitor.runOp (m : CodebaseMonitor) : BufferOp → CodebaseMonitor
  | .append ev now => m.appendChange ev now
  | .evaluate now =>
      let r := m.should_trigger_processing now
      if r.1 then r.2.trigger_change_processing now else r.2

/-- Run a sequence of buffer operations. -/
def CodebaseMonitor.runOps (m : CodebaseMonitor) (ops : List BufferOp) : CodebaseMonitor :=
  ops.foldl CodebaseMonitor.runOp m

/-- Run a trace of timed change notifications through
`_handle_file_change`, collecting the instants at which a trigger fired. -/
def CodebaseMonitor.runTrace (m : CodebaseMonitor) :
    List (Int × ChangeEvent) → List Int
  | [] => []
  | (t, ev) :: rest =>
      let r := m.handle_file_change ev t
      if r.1 then t :: r.2.runTrace rest else r.2.runTrace rest

theorem clean_old_buffer_entries_last_processing (m : CodebaseMonitor) (t : Int) :
    (m.clean_old_buffer_entries t).last_processing_time = m.last_processing_time := rfl

theorem clean_old_buffer_entries_cooldown (m : CodebaseMonitor) (t : Int) :
    (m.clean_old_buffer_entries t).processing_cooldown = m.processing_cooldown := rfl

theorem clean_old_buffer_entries_min_buffer (m : CodebaseMonitor) (t : Int) :
    (m.clean_old_buffer_entries t).min_buffer_size = m.min_buffer_size := rfl

theorem appendChange_last_processing (m : CodebaseMonitor) (ev : ChangeEvent) (now : Int) :
    (m.appendChange ev now).last_processing_time = m.last_processing_time := rfl

theorem appendChange_cooldown (m : CodebaseMonitor) (ev : ChangeEvent) (now : Int) :
    (m.appendChange ev now).processing_cooldown = m.processing_cooldown := rfl

theorem should_trigger_processing_snd (m : CodebaseMonitor) (t : Int) :
    (m.should_trigger_processing t).2 = m.clean_old_buffer_entries t := rfl

theorem clean_old_buffer_entries_invariant (m : CodebaseMonitor) (t : Int) :
    (m.clean_old_buffer_entries t).buffer_score =
      bufferSum (m.clean_old_buffer_entries t).change_buffer := rfl

theorem bufferSum_append (l : List ChangeEvent) (ev : ChangeEvent) :
    bufferSum (l ++ [ev]) = bufferSum l + ev.score := by
  unfold bufferSum
  rw [List.map_append, List.sum_append]
  simp

/-- C1 counterexample: starting from a fresh monitor, eleven appends of records
scoring 1 each leave `buffer_score = 11` while only ten records (total score 10)
are retained: the rolling sum does not equal the sum of retained scores
immediately after an append at full capacity. -/
theorem buffer_score_invariant_counterexample :
    (CodebaseMonitor.runOps {}
        (List.replicate 11 (BufferOp.append { score := 1 } 0))).buffer_score ≠
      bufferSum (CodebaseMonitor.runOps {}
        (List.replicate 11 (BufferOp.append { score := 1 } 0))).change_buffer := by
  decide

/-- C1 (amended): the rolling score sum equals the sum of retained scores after
every trigger-evaluation operation (which re-derives it while cleaning old
entries, or zeroes it when the trigger fires), and an append preserves the
invariant whenever the buffer is below its capacity of 10; only an append at
full capacity breaks it, because the evicted record's score is not subtracted. -/
theorem buffer_score_invariant_amended (m : CodebaseMonitor) (ev : ChangeEvent)
    (now t : Int)
    (hinv : m.buffer_score = bufferSum m.change_buffer)
    (hlen : m.change_buffer.length < 10) :
    (m.appendChange ev now).buffer_score =
      bufferSum (m.appendChange ev now).change_buffer ∧
    (m.runOp (.evaluate t)).buffer_score =
      bufferSum (m.runOp (.evaluate t)).change_buffer := by
  constructor
  · show m.buffer_score + ev.score = bufferSum (dequeAppend m.change_buffer ev)
    unfold dequeAppend
    have h0 : (m.change_buffer ++ [ev]).length - 10 = 0 := by
      rw [List.length_append]
      simp only [List.length_cons, List.length_nil]
      omega
    simp only [h0, List.drop_zero, bufferSum_append, hinv]
  · have heq : CodebaseMonitor.runOp m (.evaluate t) =
        (if (m.should_trigger_processing t).1 then
          (m.should_trigger_processing t).2.trigger_change_processing t
        else (m.should_trigger_processing t).2) := rfl
    rw [heq]
    split
    · rfl
    · exact clean_old_buffer_entries_invariant m t

/-- Closed witness for `buffer_score_invariant_amended` on a fresh monitor. -/
theorem buffer_score_invariant_amended_witness :
    (CodebaseMonitor.appendChange {} { score := 2 } 0).buffer_score =
      bufferSum (CodebaseMonitor.appendChange {} { score := 2 } 0).change_buffer ∧
    (CodebaseMonitor.runOp {} (.evaluate 0)).buffer_score =
      bufferSum (CodebaseMonitor.runOp {} (.evaluate 0)).change_buffer :=
  buffer_score_invariant_amended {} { score := 2 } 0 0 rfl (by decide)

/-- C3 counterexample: a trigger evaluation in which the post-eviction record
count (1) is below `min_buffer_size` (3) still fires, because the minimum-size
gate compares the record count captured before the age-based eviction. -/
theorem min_buffer_gate_counterexample :
    ((CodebaseMonitor.runOps {}
        [.append { timestamp := -1000, score := 1 } (-1000),
         .append { timestamp := -1000, score := 1 } (-1000),
         .append { timestamp := 0, score := 5 } 0]).should_trigger_processing
        100).1 = true ∧
    (((CodebaseMonitor.runOps {}
        [.append { timestamp := -1000, score := 1 } (-1000),
         .append { timestamp := -1000, score := 1 } (-1000),
         .append { timestamp := 0, score := 5 } 0]).should_trigger_processing
        100).2.change_buffer.length : Int) <
      (CodebaseMonitor.runOps {}
        [.append { timestamp := -1000, score := 1 } (-1000),
         .append { timestamp := -1000, score := 1 } (-1000),
         .append { timestamp := 0, score := 5 } 0]).min_buffer_size := by
  decide

/-- C3 (amended): every trigger evaluation first evicts records older than
`max_buffer_age` and recomputes the rolling sum before any gate is checked, and
it returns no trigger whenever the PRE-eviction record count is below
`min_buffer_size`, regardless of score, idle time, pattern conditions, or
buffer size. -/
theorem min_buffer_gate_amended (m : CodebaseMonitor) (t : Int)
    (h : (m.change_buffer.length : Int) < m.min_buffer_size) :
    (m.should_trigger_processing t).1 = false ∧
    (m.should_trigger_processing t).2 = m.clean_old_buffer_entries t ∧
    (m.should_trigger_processing t).2.buffer_score =
      bufferSum (m.should_trigger_processing t).2.change_buffer := by
  refine ⟨?_, rfl, clean_old_buffer_entries_invariant m t⟩
  show (m.clean_old_buffer_entries t).trigger_decision m.change_buffer.length t = false
  unfold CodebaseMonitor.trigger_decision
  rw [if_pos]
  rw [clean_old_buffer_entries_min_buffer]
  exact h

/-- Closed witness for `min_buffer_gate_amended`: an undersized buffer never
triggers. -/
theorem min_buffer_gate_amended_witness :
    ((CodebaseMonitor.should_trigger_processing
        { change_buffer := [{ score := 50 }], buffer_score := 50,
          last_processing_time := -1000 } 0).1 = false) ∧
    ((CodebaseMonitor.should_trigger_processing
        { change_buffer := [{ score := 50 }], buffer_score := 50,
          last_processing_time := -1000 } 0).2 =
      CodebaseMonitor.clean_old_buffer_entries
        { change_buffer := [{ score := 50 }], buffer_score := 50,
          last_processing_time := -1000 } 0) ∧
    ((CodebaseMonitor.should_trigger_processing
        { change_buffer := [{ score := 50 }], buffer_score := 50,
          last_processing_time := -1000 } 0).2.buffer_score =
      bufferSum (CodebaseMonitor.should_trigger_processing
        { change_buffer := [{ score := 50 }], buffer_score := 50,
          last_processing_time := -1000 } 0).2.change_buffer) :=
  min_buffer_gate_amended
    { change_buffer := [{ score := 50 }], buffer_score := 50,
      last_processing_time := -1000 } 0 (by decide)

theorem trigger_decision_cooldown (m1 : CodebaseMonitor) (buffer_size : Nat)
    (t : Int) (h : m1.trigger_decision buffer_size t = true) :
    m1.processing_cooldown ≤ t - m1.last_processing_time := by
  unfold CodebaseMonitor.trigger_decision at h
  split_ifs at h <;> omega

theorem should_trigger_true_cooldown (m : CodebaseMonitor) (t : Int)
    (h : (m.should_trigger_processing t).1 = true) :
    m.processing_cooldown ≤ t - m.last_processing_time := by
  have h2 : (m.clean_old_buffer_entries t).trigger_decision m.change_buffer.length t =
      true := h
  have h3 := trigger_decision_cooldown _ _ _ h2
  rwa [clean_old_buffer_entries_cooldown, clean_old_buffer_entries_last_processing] at h3

theorem should_trigger_false_of_cooldown (m : CodebaseMonitor) (t : Int)
    (h : t - m.last_processing_time < m.processing_cooldown) :
    (m.should_trigger_processing t).1 = false := by
  cases hb : (m.should_trigger_processing t).1 with
  | false => rfl
  | true => exact absurd (should_trigger_true_cooldown m t hb) (by omega)

theorem handle_file_change_eq (m : CodebaseMonitor) (ev : ChangeEvent) (now : Int) :
    m.handle_file_change ev now =
      (if ((m.appendChange ev now).should_trigger_processing now).1 then
        (true, ((m.appendChange ev now).should_trigger_processing
          now).2.trigger_change_processing now)
      else (false, ((m.appendChange ev now).should_trigger_processing now).2)) := rfl

theorem handle_fired_last (m : CodebaseMonitor) (ev : ChangeEvent) (t : Int)
    (h : (m.handle_file_change ev t).1 = true) :
    (m.handle_file_change ev t).2.last_processing_time = t := by
  rw [handle_file_change_eq] at h ⊢
  by_cases hc : ((m.appendChange ev t).should_trigger_processing t).1 = true
  · rw [if_pos hc]
    rfl
  · rw [if_neg hc] at h
    exact absurd h (by simp)

theorem handle_fired_gate (m : CodebaseMonitor) (ev : ChangeEvent) (t : Int)
    (h : (m.handle_file_change ev t).1 = true) :
    m.processing_cooldown ≤ t - m.last_processing_time := by
  rw [handle_file_change_eq] at h
  split at h
  case isTrue htr =>
    have := should_trigger_true_cooldown _ _ htr
    rwa [appendChange_cooldown, appendChange_last_processing] at this
  case isFalse => exact absurd h (by simp)

theorem handle_not_fired_last (m : CodebaseMonitor) (ev : ChangeEvent) (t : Int)
    (h : (m.handle_file_change ev t).1 = false) :
    (m.handle_file_change ev t).2.last_processing_time = m.last_processing_time := by
  rw [handle_file_change_eq] at h ⊢
  split at h
  · exact absurd h (by simp)
  · rw [if_neg (by simp_all)]
    rw [should_trigger_processing_snd, clean_old_buffer_entries_last_processing,
      appendChange_last_processing]

theorem handle_cooldown_preserved (m : CodebaseMonitor) (ev : ChangeEvent) (t : Int) :
    (m.handle_file_change ev t).2.processing_cooldown = m.processing_cooldown := by
  rw [handle_file_change_eq]
  split
  · show ((m.appendChange ev t).should_trigger_processing
      t).2.processing_cooldown = m.processing_cooldown
    rw [should_trigger_processing_snd, clean_old_buffer_entries_cooldown,
      appendChange_cooldown]
  · rw [should_trigger_processing_snd, clean_old_buffer_entries_cooldown,
      appendChange_cooldown]

theorem runTrace_cons (m : CodebaseMonitor) (t : Int) (ev : ChangeEvent)
    (rest : List (Int × ChangeEvent)) :
    m.runTrace ((t, ev) :: rest) =
      (if (m.handle_file_change ev t).1 then
        t :: (m.handle_file_change ev t).2.runTrace rest
      else (m.handle_file_change ev t).2.runTrace rest) := rfl

theorem runTrace_chain (trace : List (Int × ChangeEvent)) (m : CodebaseMonitor) :
    List.Chain' (fun a b => m.processing_cooldown ≤ b - a) (m.runTrace trace) ∧
    ∀ t0, (m.runTrace trace).head? = some t0 →
      m.processing_cooldown ≤ t0 - m.last_processing_time := by
  induction trace generalizing m with
  | nil =>
      refine ⟨List.chain'_nil, fun t0 h0 => ?_⟩
      simp [CodebaseMonitor.runTrace] at h0
  | cons p rest ih =>
      obtain ⟨t, ev⟩ := p
      cases hb : (m.handle_file_change ev t).1 with
      | true =>
          have hrt : m.runTrace ((t, ev) :: rest) =
              t :: (m.handle_file_change ev t).2.runTrace rest := by
            rw [runTrace_cons, if_pos hb]
          have hcd := handle_cooldown_preserved m ev t
          have hlast := handle_fired_last m ev t hb
          have ih' := ih (m.handle_file_change ev t).2
          rw [hcd, hlast] at ih'
          rw [hrt]
          refine ⟨List.chain'_cons'.2 ⟨fun b hbh => ih'.2 b hbh, ih'.1⟩,
            fun t0 h0 => ?_⟩
          rw [List.head?_cons, Option.some_inj] at h0
          subst h0
          exact handle_fired_gate m ev t hb
      | false =>
          have hrt : m.runTrace ((t, ev) :: rest) =
              (m.handle_file_change ev t).2.runTrace rest := by
            rw [runTrace_cons, if_neg (by simp [hb])]
          have hcd := handle_cooldown_preserved m ev t
          have hlast := handle_not_fired_last m ev t hb
          have ih' := ih (m.handle_file_change ev t).2
          rw [hcd, hlast] at ih'
          rw [hrt]
          exact ih'

/-- C6: under the simulated clock, (a) a trigger evaluation occurring less than
`processing_cooldown` after the last trigger returns no trigger regardless of
any other condition, (b) every fired trigger updates the last-trigger
timestamp to the current instant, and (c) along any trace of change
notifications the instants of consecutive fired triggers are always at least
`processing_cooldown` apart. -/
theorem no_double_trigger_within_cooldown (m : CodebaseMonitor)
    (trace : List (Int × ChangeEvent)) (s : CodebaseMonitor) (ev : ChangeEvent)
    (t : Int) :
    (t - s.last_processing_time < s.processing_cooldown →
      (s.should_trigger_processing t).1 = false) ∧
    ((s.handle_file_change ev t).1 = true →
      (s.handle_file_change ev t).2.last_processing_time = t) ∧
    List.Chain' (fun a b => m.processing_cooldown ≤ b - a) (m.runTrace trace) :=
  ⟨should_trigger_false_of_cooldown s t, handle_fired_last s ev t,
    (runTrace_chain trace m).1⟩

/-- Closed witness for `no_double_trigger_within_cooldown`: an evaluation 5
seconds after the last trigger (cooldown 30) does not fire; a fired trigger
stamps the clock; a concrete two-notification trace whose fired triggers
respect the cooldown chain. -/
theorem no_double_trigger_within_cooldown_witness :
    ((5 : Int) - (0 : Int) < (30 : Int) →
      (CodebaseMonitor.should_trigger_processing {} 5).1 = false) ∧
    ((CodebaseMonitor.handle_file_change {} { score := 9 } 5).1 = true →
      (CodebaseMonitor.handle_file_change {} { score := 9 }
        5).2.last_processing_time = 5) ∧
    List.Chain' (fun a b => (30 : Int) ≤ b - a)
      (CodebaseMonitor.runTrace {} [(0, { score := 9 }), (1, { score := 9 })]) :=
  no_double_trigger_within_cooldown {} [(0, { score := 9 }), (1, { score := 9 })]
    {} { score := 9 } 5

/-! ## Navigator comment gate
(`src/blue/agents/navigator.py`, `NavigatorAgent._should_generate_comment`).
The batch summary fields read by the gate. -/

/-- The changes-summary fields `_should_generate_comment` reads
(`changes_summary.get(key, default)`). -/
structure ChangesSummary where
  processing_reason : String := "unknown"
  priority_level : String := "low"
  buffer_score : Int := 0
  files_affected : Int := 0
  total_changes : Int := 0
deriving Repr, DecidableEq

/-- `NavigatorAgent._should_generate_comment`: the score threshold is read from
the feedback system at every call (`feedback_system.get_current_threshold()`),
then the branch chain of the source is evaluated in order. -/
def should_generate_comment (changes_summary : ChangesSummary)
    (conversation_history : List ConversationEntry)
    (feedback_system : FeedbackProcessor) : Bool :=
  let priority := changes_summary.priority_level
  let reason := changes_summary.processing_reason
  let buffer_score := changes_summary.buffer_score
  let score_threshold := feedback_system.current_score_threshold
  if reason = "score_threshold" ∧ score_threshold ≤ buffer_score then true
  else if priority = "high" ∧ max (score_threshold - 2) 3 ≤ buffer_score then true
  else if reason = "function_completion" ∧ max (score_threshold - 1) 3 ≤ buffer_score then
    true
  else if reason = "architectural_change" ∧ max (score_threshold - 1) 3 ≤ buffer_score then
    true
  else if reason = "idle_timeout" ∧ max (score_threshold - 2) 2 ≤ buffer_score then true
  else if priority = "medium" ∧ score_threshold ≤ buffer_score then
    decide (((lastN 3 conversation_history).filter
      (fun h => h.type == "proactive")).length ≤ 1)
  else if priority = "low" ∧ score_threshold + 2 ≤ buffer_score then
    decide (2 ≤ changes_summary.files_affected)
  else false

/-- C2 counterexample: with adaptive learning enabled and the default limits, a
processed positive feedback lowers the controller threshold from 5 to 4; a
buffer whose rolling score (4) meets that updated threshold, with the
minimum-size and cooldown gates passing, still yields no trigger at the very
next evaluation — the monitor's evaluation compares against its fixed
configured `score_threshold` (5), not the controller's current threshold. -/
theorem evaluation_uses_adaptive_threshold_counterexample :
    (((FeedbackProcessor.init
        { enable_adaptive_learning := true }).process_potential_feedback "thanks"
        [{ role := "assistant", awaiting_feedback := true, feedback_timeout := 100 }]
        10).1 = true) ∧
    (((FeedbackProcessor.init
        { enable_adaptive_learning := true }).process_potential_feedback "thanks"
        [{ role := "assistant", awaiting_feedback := true, feedback_timeout := 100 }]
        10).2.current_score_threshold = 4) ∧
    (((FeedbackProcessor.init
        { enable_adaptive_learning := true }).process_potential_feedback "thanks"
        [{ role := "assistant", awaiting_feedback := true, feedback_timeout := 100 }]
        10).2.current_score_threshold ≤
      (CodebaseMonitor.runOps {}
        [.append { timestamp := 40, score := 2 } 40,
         .append { timestamp := 40, score := 1 } 40,
         .append { timestamp := 40, score := 1 } 40]).buffer_score) ∧
    ¬(((CodebaseMonitor.runOps {}
        [.append { timestamp := 40, score := 2 } 40,
         .append { timestamp := 40, score := 1 } 40,
         .append { timestamp := 40, score := 1 } 40]).change_buffer.length : Int) <
      (CodebaseMonitor.runOps {}
        [.append { timestamp := 40, score := 2 } 40,
         .append { timestamp := 40, score := 1 } 40,
         .append { timestamp := 40, score := 1 } 40]).min_buffer_size) ∧
    ¬((50 : Int) - (CodebaseMonitor.runOps {}
        [.append { timestamp := 40, score := 2 } 40,
         .append { timestamp := 40, score := 1 } 40,
         .append { timestamp := 40, score := 1 } 40]).last_processing_time <
      (CodebaseMonitor.runOps {}
        [.append { timestamp := 40, score := 2 } 40,
         .append { timestamp := 40, score := 1 } 40,
         .append { timestamp := 40, score := 1 } 40]).processing_cooldown) ∧
    ((CodebaseMonitor.runOps {}
        [.append { timestamp := 40, score := 2 } 40,
         .append { timestamp := 40, score := 1 } 40,
         .append { timestamp := 40, score := 1 } 40]).should_trigger_processing
        50).1 = false := by
  decide

/-- C2 (amended): the Change Buffer's own trigger evaluation compares the
rolling score against the monitor's fixed configured `score_threshold`; it is
the navigator's comment gate that reads the Adaptive Feedback Controller's
current threshold on every call, so after a processed feedback event changes
the threshold, the navigator's very next score-threshold comparison (for a
score-threshold-reason batch of low priority) decides exactly by
`updated threshold ≤ buffer_score`. -/
theorem comment_gate_uses_adaptive_threshold (fp : FeedbackProcessor)
    (user_input : String) (history : List ConversationEntry) (now : Int)
    (changes_summary : ChangesSummary)
    (conversation_history : List ConversationEntry)
    (hreason : changes_summary.processing_reason = "score_threshold")
    (hprio : changes_summary.priority_level = "low") :
    should_generate_comment changes_summary conversation_history
        (fp.process_potential_feedback user_input history now).2 =
      decide ((fp.process_potential_feedback user_input history
        now).2.current_score_threshold ≤ changes_summary.buffer_score) := by
  generalize (fp.process_potential_feedback user_input history now).2 = fp'
  unfold should_generate_comment
  rw [hreason, hprio]
  by_cases hsc : fp'.current_score_threshold ≤ changes_summary.buffer_score
  · rw [if_pos ⟨rfl, hsc⟩, decide_eq_true hsc]
  · rw [if_neg (fun hand => hsc hand.2)]
    rw [if_neg (by rintro ⟨h1, h2⟩; exact absurd h1 (by decide))]
    rw [if_neg (by rintro ⟨h1, h2⟩; exact absurd h1 (by decide))]
    rw [if_neg (by rintro ⟨h1, h2⟩; exact absurd h1 (by decide))]
    rw [if_neg (by rintro ⟨h1, h2⟩; exact absurd h1 (by decide))]
    rw [if_neg (by rintro ⟨h1, h2⟩; exact absurd h1 (by decide))]
    rw [if_neg (by rintro ⟨h1, h2⟩; omega)]
    simp [hsc]

/-- Closed witness for `comment_gate_uses_adaptive_threshold`: after a
processed positive feedback (threshold 5 to 4), the navigator's next gate
accepts a score-threshold batch scoring 4. -/
theorem comment_gate_uses_adaptive_threshold_witness :
    should_generate_comment
        { processing_reason := "score_threshold", priority_level := "low",
          buffer_score := 4 } []
        ((FeedbackProcessor.init
            { enable_adaptive_learning := true }).process_potential_feedback "thanks"
          [{ role := "assistant", awaiting_feedback := true, feedback_timeout := 100 }]
          10).2 =
      decide (((FeedbackProcessor.init
            { enable_adaptive_learning := true }).process_potential_feedback "thanks"
          [{ role := "assistant", awaiting_feedback := true, feedback_timeout := 100 }]
          10).2.current_score_threshold ≤ (4 : Int)) :=
  comment_gate_uses_adaptive_threshold
    (FeedbackProcessor.init { enable_adaptive_learning := true }) "thanks"
    [{ role := "assistant", awaiting_feedback := true, feedback_timeout := 100 }] 10
    { processing_reason := "score_threshold", priority_level := "low",
      buffer_score := 4 } [] rfl rfl

/-! ## Pattern scoring engine and change analyzer
(`src/blue/monitoring/scoring_engine.py`, `src/blue/monitoring/change_analyzer.py`).
A configured pattern rule carries a match expression; counting its matches in a
content string is abstracted as the function `matcher` (the source counts
regex or substring occurrences, depending on the rule). -/

/-- A configured pattern rule: abstract match counter, point value, and
applicable language (or "all"). -/
structure PatternRule where
  matcher : String → Nat
  points : Int
  language : String := "all"

/-- The `scoring` configuration section: the six rule categories iterated by
`calculate_change_score` (function, module-inclusion, security,
error-handling, test, minor patterns), in order. -/
structure ScoringConfig where
  pattern_categories : List (List PatternRule) := []

/-- Python `pathlib.Path(p).name`. -/
def pathBasename (p : String) : String :=
  (pySplitOn p "/").getLastD p

/-- Python `pathlib.Path(p).suffix`: the extension of the final component,
empty when the last dot is leading or trailing. -/
def pathSuffix (p : String) : String :=
  let name := pathBasename p
  let cs := name.data
  match cs.reverse.findIdx? (fun c => c == '.') with
  | none => ""
  | some r =>
      let i := cs.length - 1 - r
      if 0 < i ∧ i < cs.length - 1 then String.mk (cs.drop i) else ""

/-- `ScoringEngine._detect_language` / `ChangeAnalyzer._detect_language`
(identical tables): map the lower-cased file suffix to a language name. -/
def detect_language (file_path : String) : String :=
  let suffix := pyLower (pathSuffix file_path)
  if suffix = ".py" then "python"
  else if suffix = ".js" then "javascript"
  else if suffix = ".ts" then "javascript"
  else if suffix = ".jsx" then "javascript"
  else if suffix = ".tsx" then "javascript"
  else if suffix = ".java" then "java"
  else if suffix = ".cpp" then "c"
  else if suffix = ".c" then "c"
  else if suffix = ".h" then "c"
  else if suffix = ".go" then "go"
  else if suffix = ".rs" then "rust"
  else if suffix = ".php" then "php"
  else if suffix = ".rb" then "ruby"
  else if suffix = ".swift" then "swift"
  else if suffix = ".kt" then "kotlin"
  else if suffix = ".cs" then "csharp"
  else "unknown"

/-- `ScoringEngine._score_content_patterns`: for each language-compatible rule
add `matches * points` (a zero match count adds nothing, as in the source's
`if matches > 0` guard). -/
def score_content_patterns (content : String) (patterns : List PatternRule)
    (file_language : String) : Int :=
  patterns.foldl
    (fun total_score p =>
      if p.language ≠ "all" ∧ p.language ≠ file_language then total_score
      else total_score + (p.matcher content : Int) * p.points)
    0

/-- `ScoringEngine.calculate_change_score`: base point 1 plus each category's
pattern score, clamped to be non-negative. -/
def calculate_change_score (cfg : ScoringConfig) (content : String)
    (file_path : String) : Int :=
  let language := detect_language file_path
  let score := cfg.pattern_categories.foldl
    (fun score category => score + score_content_patterns content category language)
    1
  max 0 score

/-- The function/pattern detection interface of `PatternMatcher`
(`src/blue/monitoring/pattern_matcher.py`), abstracted over the regex tables:
`extract_functions content language` and the three boolean pattern detectors of
`detect_code_patterns`. -/
structure PatternMatcher where
  extract_functions : String → String → List String
  has_security_patterns : String → String → Bool
  has_error_handling : String → String → Bool
  has_tests : String → String → Bool

/-- The `lines_changed` detail string built by `_analyze_file_details`:
a '+' sign is prepended only for positive deltas. -/
def linesChangedStr (line_diff : Int) : String :=
  (if 0 < line_diff then "+" else "") ++ toString line_diff ++ " lines"

/-- `ChangeAnalyzer._analyze_file_details`. The source splits contents on the
two-character sequence backslash-n (a quirk kept faithfully: its Python
literal is an escaped backslash), diffs the function sets, and flags detected
patterns; an exception while reading (`readResult = none`) is caught and
recorded as the `error` detail. -/
def ChangeAnalyzer.analyze_file_details (pm : PatternMatcher)
    (file_path event_type : String) (file_exists : Bool)
    (readResult : Option String) (prevCache : Option String) : ChangeDetails :=
  if event_type = "deleted" then { lines_changed := some "File deleted" }
  else if file_exists then
    match readResult with
    | none => { error := some "Could not analyze" }
    | some current_content =>
        let previous_content := prevCache.getD ""
        let current_lines := pySplitOn current_content "\\n"
        let previous_lines := pySplitOn previous_content "\\n"
        let line_diff : Int := (current_lines.length : Int) - (previous_lines.length : Int)
        let language := detect_language file_path
        let current_functions := pm.extract_functions current_content language
        let previous_functions := pm.extract_functions previous_content language
        let functions_added :=
          (current_functions.dedup).filter (fun f => !previous_functions.contains f)
        { lines_changed := some (linesChangedStr line_diff)
          language := some language
          functions_added := functions_added
          has_security := pm.has_security_patterns current_content language
          has_error_handling := pm.has_error_handling current_content language
          has_tests := pm.has_tests current_content language }
  else {}

/-- The integer parse of the penalty clause in `_calculate_change_score`:
`int(lines_str.split()[0].replace('+', '').replace('-', ''))`, with `none` for
a raised (and caught) parse failure. -/
def parsePenaltyNum (lines_str : String) : Option Nat :=
  let tok := (pySplit lines_str).headD ""
  let cleaned := String.mk (tok.data.filter (fun c => c != '+' && c != '-'))
  pyToNat? cleaned

/-- `ChangeAnalyzer._calculate_change_score`: 1 for a missing file (deletion
base) or a raised-and-caught read error (default score); otherwise the engine's
pattern score plus the bonuses for new functions, security, error handling and
tests, with a 1-point penalty (floored at 0) when the parsed line delta is at
most 2, and a final non-negativity clamp. -/
def ChangeAnalyzer.calculate_change_score (cfg : ScoringConfig)
    (file_path : String) (details : ChangeDetails) (file_exists : Bool)
    (readResult : Option String) : Int :=
  if !file_exists then 1
  else
    match readResult with
    | none => 1
    | some content =>
        let score := Blue.calculate_change_score cfg content file_path
        let score := score + (if !details.functions_added.isEmpty then
          (details.functions_added.length : Int) * 2 else 0)
        let score := score + (if details.has_security then 3 else 0)
        let score := score + (if details.has_error_handling then 2 else 0)
        let score := score + (if details.has_tests then 2 else 0)
        let score :=
          match details.lines_changed with
          | none => score
          | some lines_str =>
              if strContainsSub lines_str "lines" then
                match parsePenaltyNum lines_str with
                | some lines_num => if lines_num ≤ 2 then max 0 (score - 1) else score
                | none => score
              else score
        max 0 score

/-- The pattern-based score before the small-change penalty: engine score plus
the function/security/error-handling/test bonuses of
`_calculate_change_score`. -/
def pattern_based_score (cfg : ScoringConfig) (content file_path : String)
    (details : ChangeDetails) : Int :=
  Blue.calculate_change_score cfg content file_path
    + (if !details.functions_added.isEmpty then
        (details.functions_added.length : Int) * 2 else 0)
    + (if details.has_security then 3 else 0)
    + (if details.has_error_handling then 2 else 0)
    + (if details.has_tests then 2 else 0)

/-- `ChangeAnalyzer.analyze_change`: analyze the details, then score the change
(the score calculation re-reads the file; the same read outcome is passed to
both). Always returns an event: no exception escapes to the caller. -/
def ChangeAnalyzer.analyze_change (cfg : ScoringConfig) (pm : PatternMatcher)
    (file_path event_type : String) (timestamp : Int) (file_exists : Bool)
    (readResult : Option String) (prevCache : Option String) : ChangeEvent :=
  let details := ChangeAnalyzer.analyze_file_details pm file_path event_type
    file_exists readResult prevCache
  { file_path := file_path
    event_type := event_type
    timestamp := timestamp
    details := details
    score := ChangeAnalyzer.calculate_change_score cfg file_path details
      file_exists readResult }

/-- A pattern matcher with empty tables (used for concrete evaluations). -/
def pmTrivial : PatternMatcher :=
  { extract_functions := fun _ _ => []
    has_security_patterns := fun _ _ => false
    has_error_handling := fun _ _ => false
    has_tests := fun _ _ => false }

/-- C4 counterexample: a change notification on an existing but unreadable file
("modified", the read raises) is scored 1 — the caught-exception default —
not 0; the error flag is recorded. -/
theorem unreadable_file_score_counterexample :
    (ChangeAnalyzer.analyze_change {} pmTrivial "a.py" "modified" 0 true none
      none).score = 1 ∧
    (ChangeAnalyzer.analyze_change {} pmTrivial "a.py" "modified" 0 true none
      none).score ≠ 0 ∧
    (ChangeAnalyzer.analyze_change {} pmTrivial "a.py" "modified" 0 true none
      none).details.error.isSome = true := by
  refine ⟨rfl, ?_, rfl⟩
  intro h
  exact absurd (rfl.symm.trans h) (by decide)

/-- C4 (amended): for every non-deletion change notification whose file read
raises, the analyzer records the error flag in the change details and returns a
score of 1 (the default), never 0; the embedding is total, so no exception
reaches the caller and the pipeline keeps running. -/
theorem unreadable_file_score_amended (cfg : ScoringConfig) (pm : PatternMatcher)
    (file_path event_type : String) (timestamp : Int) (prevCache : Option String)
    (hev : event_type ≠ "deleted") :
    (ChangeAnalyzer.analyze_change cfg pm file_path event_type timestamp true none
      prevCache).score = 1 ∧
    (ChangeAnalyzer.analyze_change cfg pm file_path event_type timestamp true none
      prevCache).details.error.isSome = true := by
  have hdet : ChangeAnalyzer.analyze_file_details pm file_path event_type true none
      prevCache = { error := some "Could not analyze" } := by
    unfold ChangeAnalyzer.analyze_file_details
    rw [if_neg hev]
    rfl
  constructor
  · rfl
  · show (ChangeAnalyzer.analyze_file_details pm file_path event_type true none
      prevCache).error.isSome = true
    rw [hdet]
    rfl

/-- Closed witness for `unreadable_file_score_amended`. -/
theorem unreadable_file_score_amended_witness :
    (ChangeAnalyzer.analyze_change {} pmTrivial "b.py" "created" 7 true none
      (some "x")).score = 1 ∧
    (ChangeAnalyzer.analyze_change {} pmTrivial "b.py" "created" 7 true none
      (some "x")).details.error.isSome = true :=
  unreadable_file_score_amended {} pmTrivial "b.py" "created" 7 (some "x")
    (by decide)

theorem calculate_change_score_readable (cfg : ScoringConfig)
    (file_path content : String) (details : ChangeDetails) :
    ChangeAnalyzer.calculate_change_score cfg file_path details true (some content) =
      max 0 (match details.lines_changed with
        | none => pattern_based_score cfg content file_path details
        | some lines_str =>
            if strContainsSub lines_str "lines" then
              match parsePenaltyNum lines_str with
              | some lines_num =>
                  if lines_num ≤ 2 then
                    max 0 (pattern_based_score cfg content file_path details - 1)
                  else pattern_based_score cfg content file_path details
              | none => pattern_based_score cfg content file_path details
            else pattern_based_score cfg content file_path details) := rfl

theorem linesChangedStr_parse_small (d : Int) (hd : d.natAbs ≤ 2) :
    strContainsSub (linesChangedStr d) "lines" = true ∧
      parsePenaltyNum (linesChangedStr d) = some d.natAbs := by
  have hc : d = -2 ∨ d = -1 ∨ d = 0 ∨ d = 1 ∨ d = 2 := by omega
  rcases hc with h | h | h | h | h <;> subst h <;> exact ⟨by decide, by decide⟩

theorem max_zero_absorb (x : Int) : max 0 (max 0 x) = max 0 x := by
  rcases le_total 0 x with h | h
  · rw [max_eq_right h, max_eq_right h]
  · rw [max_eq_left h, max_eq_left (le_refl 0)]

/-- C9: for every scored non-deletion change whose computed line delta between
previous and current content has absolute value at most 2, the final score is
exactly the pattern-based score (engine score plus bonuses) minus 1, floored
at 0. -/
theorem small_change_penalty (cfg : ScoringConfig) (pm : PatternMatcher)
    (file_path event_type : String) (prevCache : Option String) (content : String)
    (hev : event_type ≠ "deleted")
    (hd : (((pySplitOn content "\\n").length : Int) -
      ((pySplitOn (prevCache.getD "") "\\n").length : Int)).natAbs ≤ 2) :
    ChangeAnalyzer.calculate_change_score cfg file_path
        (ChangeAnalyzer.analyze_file_details pm file_path event_type true
          (some content) prevCache) true (some content) =
      max 0 (pattern_based_score cfg content file_path
        (ChangeAnalyzer.analyze_file_details pm file_path event_type true
          (some content) prevCache) - 1) := by
  have hlc : (ChangeAnalyzer.analyze_file_details pm file_path event_type true
      (some content) prevCache).lines_changed =
      some (linesChangedStr (((pySplitOn content "\\n").length : Int) -
        ((pySplitOn (prevCache.getD "") "\\n").length : Int))) := by
    unfold ChangeAnalyzer.analyze_file_details
    rw [if_neg hev]
    rfl
  have hparse := linesChangedStr_parse_small _ hd
  rw [calculate_change_score_readable, hlc]
  simp only [hparse.1, if_true, hparse.2]
  rw [if_pos hd]
  exact max_zero_absorb _

/-- Closed witness for `small_change_penalty`: a one-line tweak (delta 0
against an empty cache entry ... both sides hold one backslash-n-free line) on
a file whose engine score is the base 1 ends at `max 0 (1 - 1) = 0`. -/
theorem small_change_penalty_witness :
    ChangeAnalyzer.calculate_change_score {} "c.py"
        (ChangeAnalyzer.analyze_file_details pmTrivial "c.py" "modified" true
          (some "pass") none) true (some "pass") =
      max 0 (pattern_based_score {} "pass" "c.py"
        (ChangeAnalyzer.analyze_file_details pmTrivial "c.py" "modified" true
          (some "pass") none) - 1) :=
  small_change_penalty {} pmTrivial "c.py" "modified" none "pass" (by decide)
    (by decide)

/-! ## Decision engine
(`src/blue/core/decision_engine.py`, `DecisionEngine._parse_decision_response`). -/

/-- An ASCII word character, the word class underlying the confidence
pattern's word boundaries. -/
def wordChar (c : Char) : Bool := c.isAlphanum || c == '_'

/-- Helper for `wordRuns`: split a character list at every non-word
character. -/
def splitNonWordAux : List Char → List (List Char)
  | [] => [[]]
  | c :: rest =>
      if wordChar c then
        match splitNonWordAux rest with
        | [] => [[c]]
        | r :: rs => (c :: r) :: rs
      else [] :: splitNonWordAux rest

/-- The maximal word-character runs of a character list. -/
def wordRuns (cs : List Char) : List (List Char) :=
  (splitNonWordAux cs).filter (fun r => !r.isEmpty)

/-- A word run matched by the confidence pattern (an integer 1 to 10 delimited
by word boundaries), mapped to its value. -/
def numToken? (run : List Char) : Option Nat :=
  if run = ['1', '0'] then some 10
  else match run with
    | [c] => if '1' ≤ c ∧ c ≤ '9' then some (c.toNat - '0'.toNat) else none
    | _ => none

/-- The list the source's confidence search returns on `response`: a
word-boundary-delimited occurrence of 1 to 10 is exactly a maximal word run
equal to one of those numerals, found left to right. -/
def confidence_matches (response : String) : List Nat :=
  (wordRuns response.data).filterMap numToken?

/-- `DecisionEngine._parse_decision_response`: locate "yes"/"no" as substrings
of the lower-cased response; neither or an explicit "no" rejects; with "yes",
the last confidence number found must reach `confidence_threshold`; with "yes"
and no number, accept. -/
def DecisionEngine.parse_decision_response (limits : Limits)
    (response : String) : Bool :=
  let response_lower := pyLower response
  let has_yes := strContainsSub response_lower "yes"
  let has_no := strContainsSub response_lower "no"
  if !has_yes && !has_no then false
  else if has_no then false
  else
    match (confidence_matches response).getLast? with
    | some confidence =>
        has_yes && decide (limits.confidence_threshold ≤ (confidence : Int))
    | none => has_yes

/-- C7: for every response string, taking the clauses in their stated order —
with neither "yes" nor "no" present (case-insensitively) the result is Reject;
with "no" present the result is Reject; with "yes" present (and "no" absent)
and a last word-boundary-delimited integer in [1,10] found, the result is
Accept if and only if that integer reaches `confidence_threshold` (default 7);
with "yes" present (and "no" absent) but no such integer, the result is
Accept. -/
theorem parse_decision_response_spec (limits : Limits) (response : String) :
    (strContainsSub (pyLower response) "yes" = false →
      strContainsSub (pyLower response) "no" = false →
      DecisionEngine.parse_decision_response limits response = false) ∧
    (strContainsSub (pyLower response) "no" = true →
      DecisionEngine.parse_decision_response limits response = false) ∧
    (∀ c : Nat, strContainsSub (pyLower response) "yes" = true →
      strContainsSub (pyLower response) "no" = false →
      (confidence_matches response).getLast? = some c →
      (DecisionEngine.parse_decision_response limits response = true ↔
        limits.confidence_threshold ≤ (c : Int))) ∧
    (strContainsSub (pyLower response) "yes" = true →
      strContainsSub (pyLower response) "no" = false →
      (confidence_matches response).getLast? = none →
      DecisionEngine.parse_decision_response limits response = true) := by
  refine ⟨?_, ?_, ?_, ?_⟩
  · intro hy hn
    simp only [DecisionEngine.parse_decision_response]
    rw [hy, hn]
    rfl
  · intro hn
    simp only [DecisionEngine.parse_decision_response]
    rw [hn]
    cases hy : strContainsSub (pyLower response) "yes" <;> rfl
  · intro c hy hn hc
    simp only [DecisionEngine.parse_decision_response]
    rw [hy, hn, hc]
    simp
  · intro hy hn hc
    simp only [DecisionEngine.parse_decision_response]
    rw [hy, hn, hc]
    rfl

/-- Closed witness for `parse_decision_response_spec`: the default-threshold
parse of "YES, confidence: 8" accepts because 7 ≤ 8. -/
theorem parse_decision_response_spec_witness :
    DecisionEngine.parse_decision_response {} "YES, confidence: 8" = true ↔
      (Limits.confidence_threshold {} ≤ ((8 : Nat) : Int)) :=
  (parse_decision_response_spec {} "YES, confidence: 8").2.2.1 8
    (by decide) (by decide) (by decide)
